import Mathlib

/-!
Shallow embedding of the configuration-reconciliation and output-emission
logic of `examples/nlp/language_modeling/tuning/megatron_gpt_peft_eval.py`
and of the config merge in
`examples/nlp/language_modeling/tuning/megatron_retro_lora_tuning.py`.

Configuration trees are OmegaConf dict-configs in the source.  The fields
the scripts read or write are modelled as named structure fields; all
remaining keys of a node are collected in a `rest` association list, so
that frame properties ("every other key keeps its value") are statable.
Leaf values the scripts merely copy are modelled by the opaque value type
`CVal`.
-/

/-- An opaque configuration leaf value (YAML scalar or subtree treated as
a whole): `vNone` is Python/YAML `null`. -/
inductive CVal where
  | vNone : CVal
  | vBool : Bool → CVal
  | vInt : Int → CVal
  | vStr : String → CVal
deriving DecidableEq

/-- The `data.test_ds` node.  The script reads `add_bos` and
`tokens_to_generate` from it (lines 150-151); everything else is in
`rest`. -/
structure TestDS where
  add_bos : Bool
  tokens_to_generate : Int
  rest : List (String × CVal)
deriving DecidableEq

/-- The `data` node of a persisted model config: its `test_ds` child plus
the remaining children (`train_ds`, `validation_ds`, ...). -/
structure DataCfg where
  test_ds : TestDS
  rest : List (String × CVal)
deriving DecidableEq

/-- A persisted model configuration (the config returned by
`restore_from(..., return_config=True)` or loaded from the hparams file).
Fields touched by the merge at lines 136-145 are explicit;
`use_flash_attention` and `seq_len_interpolation_factor` may be absent
(`none`) since the script accesses them with `.get`/guards. -/
structure ModelCfg where
  precision : CVal
  data : DataCfg
  activations_checkpoint_granularity : CVal
  activations_checkpoint_method : CVal
  use_flash_attention : Option Bool
  seq_len_interpolation_factor : Option CVal
  rest : List (String × CVal)
deriving DecidableEq

/-- The runtime `model.peft` options (from the hydra config). -/
structure PeftOpts where
  restore_from_path : Option String
  restore_from_hparams_path : Option String
  restore_from_ckpt_name : Option String
deriving DecidableEq

/-- The runtime `trainer` section; the script reads `precision`. -/
structure TrainerCfg where
  precision : CVal
  rest : List (String × CVal)
deriving DecidableEq

/-- The runtime `inference` section.  `verbose` is read with
`.get("verbose", False)` so it may be absent; `outfile_path` is compared
against `None`. -/
structure InferenceCfg where
  add_BOS : Bool
  tokens_to_generate : Int
  compute_logprob : Bool
  verbose : Option Bool
  outfile_path : Option String
  rest : List (String × CVal)
deriving DecidableEq

/-- The runtime `model` section.  The two activation-checkpointing keys
may be set by the user (hydra overrides) but are never read by the
script; they are carried here so that claims about runtime-set values can
be stated. -/
structure RModelCfg where
  restore_from_path : String
  peft : PeftOpts
  data : DataCfg
  use_flash_attention : Bool
  seq_len_interpolation_factor : Option CVal
  activations_checkpoint_granularity : Option CVal
  activations_checkpoint_method : Option CVal
  rest : List (String × CVal)
deriving DecidableEq

/-- The whole runtime (hydra) configuration `cfg`. -/
structure RuntimeCfg where
  trainer : TrainerCfg
  model : RModelCfg
  inference : InferenceCfg
  rest : List (String × CVal)
deriving DecidableEq

/-- Python truthiness of an optional string config entry: `None` and the
empty string are falsy. -/
def truthy : Option String → Bool
  | none => false
  | some s => s != ""

/-- Python's `str.endswith`, over the character sequences of the two
strings. -/
def endsWithStr (s suffix : String) : Bool :=
  suffix.data.isSuffixOf s.data

/-- The in-place update of the restored model config at lines 136-145 of
`megatron_gpt_peft_eval.py`, as a function from the restored config `p`
and the runtime config `r` to the updated config:
`precision` and `data.test_ds` are overwritten from the runtime config
unconditionally, both activation-checkpointing keys are set to `None`,
`use_flash_attention` is overwritten from the runtime config only when
the restored config has it truthy (`p.get("use_flash_attention", False)`),
and `seq_len_interpolation_factor` is overwritten only when the runtime
config has it non-`None`. -/
def mergePeftModelCfg (p : ModelCfg) (r : RuntimeCfg) : ModelCfg :=
  let p1 : ModelCfg :=
    { p with
      precision := r.trainer.precision
      data := { p.data with test_ds := r.model.data.test_ds }
      activations_checkpoint_granularity := CVal.vNone
      activations_checkpoint_method := CVal.vNone }
  let p2 : ModelCfg :=
    if p1.use_flash_attention.getD false then
      { p1 with use_flash_attention := some r.model.use_flash_attention }
    else p1
  match r.model.seq_len_interpolation_factor with
  | some v => { p2 with seq_len_interpolation_factor := some v }
  | none => p2

/-- Lines 136-151: the merge of the restored model config followed by the
back-propagation of `add_bos` and `tokens_to_generate` from the merged
`data.test_ds` into `cfg.inference` (lines 147-151).  Returns the merged
model config together with the updated runtime config. -/
def mergeAndBackProp (p : ModelCfg) (r : RuntimeCfg) : ModelCfg × RuntimeCfg :=
  let m := mergePeftModelCfg p r
  (m,
    { r with
      inference :=
        { r.inference with
          add_BOS := m.data.test_ds.add_bos
          tokens_to_generate := m.data.test_ds.tokens_to_generate } })

/-- The error raised at line 129 of the script (spec taxonomy name:
`ConfigSourceError`). -/
inductive ConfigError where
  | configSourceError : String → ConfigError
deriving DecidableEq

/-- Lines 118-133: selection of the config source.  The three loaders
stand for the external collaborators: `loadPeftNemo` for
`MegatronGPTPEFTModel.restore_from(return_config=True)`, `loadHparams`
for `OmegaConf.load(...).cfg`, `loadBase` for
`MegatronGPTSFTModel.restore_from(return_config=True)` on the base
path. -/
def selectPeftModelCfg (loadPeftNemo loadHparams loadBase : String → ModelCfg)
    (r : RuntimeCfg) : Except ConfigError ModelCfg :=
  if truthy r.model.peft.restore_from_path then
    let path := r.model.peft.restore_from_path.getD ""
    if endsWithStr path ".nemo" then
      Except.ok (loadPeftNemo path)
    else if truthy r.model.peft.restore_from_hparams_path then
      Except.ok (loadHparams (r.model.peft.restore_from_hparams_path.getD ""))
    else
      Except.error (ConfigError.configSourceError
        "This script requires a .nemo peft model or path to hparams.yaml (and a ckpt path).")
  else
    Except.ok (loadBase r.model.restore_from_path)

/-- The save-restore connector chosen at lines 153-170, with the
constructor arguments of `PEFTSaveRestoreConnector`
(`peft_model_nemo_path`, `peft_model_ckpt_path`, `peft_model_ckpt_name`). -/
inductive Connector where
  | PEFTSaveRestoreConnector (peft_model_nemo_path : Option String)
      (peft_model_ckpt_path : Option String) (peft_model_ckpt_name : Option String)
  | NLPSaveRestoreConnector
deriving DecidableEq

/-- Lines 153-170: connector selection.  For a raw-checkpoint adapter
path the weight file name defaults to `model_weights.ckpt` when
`restore_from_ckpt_name` is falsy. -/
def selectConnector (peft : PeftOpts) : Connector :=
  if truthy peft.restore_from_path then
    let path := peft.restore_from_path.getD ""
    if endsWithStr path ".nemo" then
      Connector.PEFTSaveRestoreConnector (some path) none none
    else
      let ckpt_name :=
        if truthy peft.restore_from_ckpt_name then peft.restore_from_ckpt_name.getD ""
        else "model_weights.ckpt"
      Connector.PEFTSaveRestoreConnector none (some path) (some ckpt_name)
  else
    Connector.NLPSaveRestoreConnector

/-- Composition of config-source selection (lines 118-133) and the merge
with back-propagation (lines 136-151). -/
def configPipeline (loadPeftNemo loadHparams loadBase : String → ModelCfg)
    (r : RuntimeCfg) : Except ConfigError (ModelCfg × RuntimeCfg) :=
  match selectPeftModelCfg loadPeftNemo loadHparams loadBase r with
  | Except.ok p => Except.ok (mergeAndBackProp p r)
  | Except.error e => Except.error e

/-!  The config merge of `megatron_retro_lora_tuning.py`, lines 103-117. -/

/-- The persisted (frozen) model config restored at lines 99-101 of the
retro tuning script.  The fields overwritten at lines 103-113 are
explicit; `shape_file` may be absent; the rest is untouched. -/
structure FrozenCfg where
  tokenizer : CVal
  data : CVal
  adapter_tuning : CVal
  optim : CVal
  restore_from_path : CVal
  eval : CVal
  add_position_embedding : CVal
  micro_batch_size : CVal
  precision : CVal
  task_templates : CVal
  shape_file : Option CVal
  rest : List (String × CVal)
deriving DecidableEq

/-- The runtime `model` section read by the retro tuning script. -/
structure RetroModelCfg where
  tokenizer : CVal
  data : CVal
  adapter_tuning : CVal
  optim : CVal
  restore_from_path : CVal
  eval : CVal
  add_position_embedding : CVal
  micro_batch_size : CVal
  task_templates : CVal
  rest : List (String × CVal)
deriving DecidableEq

/-- The runtime configuration of the retro tuning script:
`trainer_precision` models `trainer.precision` (line 111 assigns the
trainer object's precision, which is the value the trainer was built
with). -/
structure RetroRuntimeCfg where
  trainer_precision : CVal
  model : RetroModelCfg
  rest : List (String × CVal)
deriving DecidableEq

/-- Lines 103-117 of `megatron_retro_lora_tuning.py`: every listed field
of the frozen config is overwritten from the runtime config, `precision`
from the trainer, and the `shape_file` key is removed (popped) when
present, so it is absent in the result either way. -/
def mergeFrozenModelCfg (f : FrozenCfg) (r : RetroRuntimeCfg) : FrozenCfg :=
  { f with
    tokenizer := r.model.tokenizer
    data := r.model.data
    adapter_tuning := r.model.adapter_tuning
    optim := r.model.optim
    restore_from_path := r.model.restore_from_path
    eval := r.model.eval
    add_position_embedding := r.model.add_position_embedding
    micro_batch_size := r.model.micro_batch_size
    precision := r.trainer_precision
    task_templates := r.model.task_templates
    shape_file := none }

/-- The retro merge step as a state transformer: lines 103-117 write only
the frozen config; the runtime config is returned unchanged. -/
def retroMergeStep (f : FrozenCfg) (r : RetroRuntimeCfg) : FrozenCfg × RetroRuntimeCfg :=
  (mergeFrozenModelCfg f r, r)

/-!  The output-emission logic of `megatron_gpt_peft_eval.py`, lines
331-354, together with an embedding of the `json.dumps` calls it makes. -/

/-- The opening brace character. -/
def lbrace : Char := Char.ofNat 123

/-- The closing brace character. -/
def rbrace : Char := Char.ofNat 125

/-- Lower-case hexadecimal digit (argument taken mod 16 by all callers). -/
def hexDigit (k : Nat) : Char :=
  if k < 10 then Char.ofNat (48 + k) else Char.ofNat (87 + k)

/-- A `\uXXXX` escape for a code unit below 0x10000. -/
def uEscapeData (n : Nat) : List Char :=
  ['\\', 'u', hexDigit (n / 4096 % 16), hexDigit (n / 256 % 16),
    hexDigit (n / 16 % 16), hexDigit (n % 16)]

/-- The `ensure_ascii` escape of a code point: one `\uXXXX` unit below
0x10000, a surrogate pair above. -/
def uEscapeCodeData (n : Nat) : List Char :=
  if n < 65536 then uEscapeData n
  else uEscapeData (55296 + (n - 65536) / 1024) ++ uEscapeData (56320 + (n - 65536) % 1024)

/-- How `json.dumps` (defaults: `ensure_ascii=True`) renders one
character inside a string literal. -/
def jsonEscapeChar (c : Char) : List Char :=
  if c = '"' then ['\\', '"']
  else if c = '\\' then ['\\', '\\']
  else if c = '\n' then ['\\', 'n']
  else if c = '\t' then ['\\', 't']
  else if c = '\r' then ['\\', 'r']
  else if c.toNat = 8 then ['\\', 'b']
  else if c.toNat = 12 then ['\\', 'f']
  else if c.toNat < 32 then uEscapeData c.toNat
  else if c.toNat < 128 then [c]
  else uEscapeCodeData c.toNat

/-- Escape a character list. -/
def escData : List Char → List Char
  | [] => []
  | c :: cs => jsonEscapeChar c ++ escData cs

/-- A JSON string literal, as a character list. -/
def jsonQuoteData (s : String) : List Char :=
  '"' :: escData s.data ++ ['"']

/-- One `"key": "value"` entry. -/
def jsonEntryData (kv : String × String) : List Char :=
  jsonQuoteData kv.1 ++ ':' :: ' ' :: jsonQuoteData kv.2

/-- The entries of a flat object, separated by `", "` (the `json.dumps`
default separators). -/
def jsonEntriesData : List (String × String) → List Char
  | [] => []
  | [kv] => jsonEntryData kv
  | kv :: kv2 :: kvs => jsonEntryData kv ++ ',' :: ' ' :: jsonEntriesData (kv2 :: kvs)

/-- `json.dumps` of a non-empty flat object whose values are strings,
with default arguments, as produced at line 350. -/
def jsonDumpsObj (kvs : List (String × String)) : String :=
  String.mk (lbrace :: jsonEntriesData kvs ++ [rbrace])

/-- The entries of a flat object at `indent=2`: each entry on its own
line with a two-space indent, separated by `",\n"`. -/
def jsonEntriesIndent2Data : List (String × String) → List Char
  | [] => []
  | [kv] => ' ' :: ' ' :: jsonEntryData kv
  | kv :: kv2 :: kvs =>
      ' ' :: ' ' :: jsonEntryData kv ++ ',' :: '\n' :: jsonEntriesIndent2Data (kv2 :: kvs)

/-- Insertion into a key-sorted association list. -/
def insertByKey (kv : String × String) : List (String × String) → List (String × String)
  | [] => [kv]
  | x :: xs => if kv.1 ≤ x.1 then kv :: x :: xs else x :: insertByKey kv xs

/-- Key sort, modelling `sort_keys=True`. -/
def sortByKey : List (String × String) → List (String × String)
  | [] => []
  | x :: xs => insertByKey x (sortByKey xs)

/-- `json.dumps(d, sort_keys=True, indent=2)` of a non-empty flat object
whose values are strings, as produced at line 346. -/
def jsonDumpsSortedIndent2 (kvs : List (String × String)) : String :=
  String.mk (lbrace :: '\n' :: jsonEntriesIndent2Data (sortByKey kvs) ++ ['\n', rbrace])

/-- Round a rational to the nearest integer, ties to even (the rounding
of fixed-point float formatting). -/
def roundHalfToEven (q : Rat) : Int :=
  let f : Int := Rat.floor q
  let r : Rat := q - (f : Rat)
  if r < (1 : Rat) / 2 then f
  else if (1 : Rat) / 2 < r then f + 1
  else if f % 2 = 0 then f else f + 1

/-- The Python format `f"{x:.4f}"`: fixed-point rendering with exactly
four digits after the decimal point (log-probabilities are modelled as
rationals, so the rounding is the exact-value round-to-nearest). -/
def format4 (q : Rat) : String :=
  let aq := if q < 0 then -q else q
  let m := (roundHalfToEven (aq * 10000)).toNat
  let ip := toString (m / 10000)
  let fp := toString (m % 10000)
  let fpad := String.mk (List.replicate (4 - fp.length) '0') ++ fp
  (if q < 0 then "-" else "") ++ ip ++ "." ++ fpad

/-- Line 344: `', '.join([f"{_t} {_l:.4f}" for _t, _l in zip(t, l)])`. -/
def tokensWithLogprobs (t : List String) (l : List Rat) : String :=
  String.intercalate ", " ((t.zip l).map (fun p => p.1 ++ " " ++ format4 p.2))

/-- One prediction batch of `trainer.predict` as read by the output loop:
`batch['sentences']`, `batch['tokens']` and `batch['logprob']`
(log-probabilities as rationals after `.tolist()`). -/
structure ResponseBatch where
  sentences : List String
  tokens : List (List String)
  logprob : List (List Rat)

/-- Lines 336-350, one batch: the records written for that batch (each is
written followed by one `'\n'`).  With `compute_logprob` the loop zips
sentences, tokens and log-probabilities and writes a sorted, indent-2
record only when `inference.get("verbose", False)` is truthy; otherwise
it writes one compact single-key record per sentence. -/
def batchRecords (inf : InferenceCfg) (b : ResponseBatch) : List String :=
  if inf.compute_logprob then
    ((b.sentences.zip (b.tokens.zip b.logprob)).map (fun stl =>
      if inf.verbose.getD false then
        [jsonDumpsSortedIndent2
          [("sentence", stl.1),
           ("tokens_with_logprobs", tokensWithLogprobs stl.2.1 stl.2.2)]]
      else [])).flatten
  else
    b.sentences.map (fun s => jsonDumpsObj [("sentence", s)])

/-- All records written to the output file, over all batches of the
response, in order (lines 335-350). -/
def recordLines (inf : InferenceCfg) (response : List ResponseBatch) : List String :=
  (response.map (batchRecords inf)).flatten

/-- The observable outcome of lines 331-354: on rank 0 either the records
are written to the given file and the path is reported, or the response
is printed; other ranks do nothing. -/
inductive EmitAction where
  | toFile (path : String) (lines : List String) (report : String)
  | printed (response : List ResponseBatch)
  | noOutput

/-- Lines 331-354: rank 0 writes `recordLines` to `outfile_path` and
prints `"predictions saved to <path>"` when the path is not `None`
(opening the file with mode `"w"` creates or truncates it even when no
record is written); otherwise it prints the response. -/
def emitResults (globalRank : Nat) (inf : InferenceCfg) (response : List ResponseBatch) :
    EmitAction :=
  if globalRank = 0 then
    match inf.outfile_path with
    | some p => EmitAction.toFile p (recordLines inf response) ("predictions saved to " ++ p)
    | none => EmitAction.printed response
  else EmitAction.noOutput

/-!  Claims about the config merge and config-source selection. -/

/-- Concrete restored model config for the C1 counterexample: flash
attention persisted as `False`, a persisted activation-checkpointing
granularity. -/
def c1Persisted : ModelCfg :=
  { precision := CVal.vInt 32
    data := { test_ds := { add_bos := false, tokens_to_generate := 30, rest := [] }, rest := [] }
    activations_checkpoint_granularity := CVal.vStr "selective"
    activations_checkpoint_method := CVal.vStr "uniform"
    use_flash_attention := some false
    seq_len_interpolation_factor := none
    rest := [] }

/-- Concrete runtime config for the C1 counterexample: it explicitly sets
`model.use_flash_attention=True` and
`model.activations_checkpoint_granularity=full`. -/
def c1Runtime : RuntimeCfg :=
  { trainer := { precision := CVal.vInt 16, rest := [] }
    model :=
      { restore_from_path := "base.nemo"
        peft := { restore_from_path := some "adapter.nemo", restore_from_hparams_path := none,
                  restore_from_ckpt_name := none }
        data := { test_ds := { add_bos := true, tokens_to_generate := 20, rest := [] }, rest := [] }
        use_flash_attention := true
        seq_len_interpolation_factor := none
        activations_checkpoint_granularity := some (CVal.vStr "full")
        activations_checkpoint_method := none
        rest := [] }
    inference := { add_BOS := false, tokens_to_generate := 0, compute_logprob := false,
                   verbose := none, outfile_path := none, rest := [] }
    rest := [] }

/-- C1 (counterexample): the claim "each field in the runtime-overridable
set that is explicitly set in the runtime config appears with the runtime
value, unchanged, in the effective config" is false.  Concretely, with a
persisted config carrying `use_flash_attention=False` and a runtime
config explicitly setting `use_flash_attention=True` and
`activations_checkpoint_granularity=full`, the merged config keeps
`use_flash_attention=False` (the runtime value is only taken when the
persisted flag is truthy) and forces the activation-checkpointing
granularity to `None` instead of the runtime value. -/
theorem c1_runtime_override_counterexample :
    (mergePeftModelCfg c1Persisted c1Runtime).use_flash_attention ≠
      some c1Runtime.model.use_flash_attention ∧
    c1Runtime.model.activations_checkpoint_granularity = some (CVal.vStr "full") ∧
    (mergePeftModelCfg c1Persisted c1Runtime).activations_checkpoint_granularity ≠
      CVal.vStr "full" := by
  decide

/-- C1 (amended): what the merges actually do.  In the eval script,
`precision` and the test data spec are always taken from the runtime
config; the two activation-checkpointing fields are forced to `None`
regardless of either config's values; the flash-attention toggle takes
the runtime value only when the persisted config has it truthy and keeps
the persisted value otherwise; the sequence-length interpolation factor
takes the runtime value exactly when the runtime sets it non-`None`; and
every key the merge does not touch keeps the persisted config's value.
In the tuning script, tokenizer, data specs, adapter-tuning
hyperparameters, optimizer (and the other listed fields) are always taken
from the runtime config, the trainer's precision overwrites `precision`,
the persisted `shape_file` key is removed, and all other keys keep the
persisted config's value. -/
theorem c1_merge_precedence_amended (p : ModelCfg) (r : RuntimeCfg)
    (f : FrozenCfg) (rr : RetroRuntimeCfg) :
    (mergePeftModelCfg p r).precision = r.trainer.precision ∧
    (mergePeftModelCfg p r).data.test_ds = r.model.data.test_ds ∧
    (mergePeftModelCfg p r).activations_checkpoint_granularity = CVal.vNone ∧
    (mergePeftModelCfg p r).activations_checkpoint_method = CVal.vNone ∧
    (mergePeftModelCfg p r).use_flash_attention =
      (if p.use_flash_attention.getD false then some r.model.use_flash_attention
       else p.use_flash_attention) ∧
    (mergePeftModelCfg p r).seq_len_interpolation_factor =
      r.model.seq_len_interpolation_factor.elim p.seq_len_interpolation_factor some ∧
    (mergePeftModelCfg p r).data.rest = p.data.rest ∧
    (mergePeftModelCfg p r).rest = p.rest ∧
    (mergeFrozenModelCfg f rr).tokenizer = rr.model.tokenizer ∧
    (mergeFrozenModelCfg f rr).data = rr.model.data ∧
    (mergeFrozenModelCfg f rr).adapter_tuning = rr.model.adapter_tuning ∧
    (mergeFrozenModelCfg f rr).optim = rr.model.optim ∧
    (mergeFrozenModelCfg f rr).precision = rr.trainer_precision ∧
    (mergeFrozenModelCfg f rr).shape_file = none ∧
    (mergeFrozenModelCfg f rr).rest = f.rest := by
  unfold mergePeftModelCfg mergeFrozenModelCfg
  cases hs : r.model.seq_len_interpolation_factor <;>
    cases hf : p.use_flash_attention <;>
      simp [hs, hf] <;> split <;> simp_all

/-- C2: after the merge-and-back-propagation step, the runtime inference
configuration's `add_BOS` equals the merged test-data-spec's `add_bos`
and its `tokens_to_generate` equals the merged test-data-spec's
`tokens_to_generate`, for every input pair of configs. -/
theorem c2_backprop_fields (p : ModelCfg) (r : RuntimeCfg) :
    (mergeAndBackProp p r).2.inference.add_BOS =
      (mergeAndBackProp p r).1.data.test_ds.add_bos ∧
    (mergeAndBackProp p r).2.inference.tokens_to_generate =
      (mergeAndBackProp p r).1.data.test_ds.tokens_to_generate :=
  ⟨rfl, rfl⟩

/-- C6: the merge step has no effect on the runtime config beyond the two
back-propagated fields: the returned runtime config equals the input with
only `inference.add_BOS` and `inference.tokens_to_generate` replaced; and
the retro tuning script's merge (lines 103-117) returns the runtime
config entirely unchanged. -/
theorem c6_merge_frame (p : ModelCfg) (r : RuntimeCfg)
    (f : FrozenCfg) (rr : RetroRuntimeCfg) :
    (mergeAndBackProp p r).2 =
      { r with
        inference :=
          { r.inference with
            add_BOS := (mergeAndBackProp p r).1.data.test_ds.add_bos
            tokens_to_generate := (mergeAndBackProp p r).1.data.test_ds.tokens_to_generate } } ∧
    (retroMergeStep f rr).2 = rr :=
  ⟨rfl, rfl⟩

/-- Concrete model config used by the C3 witness loaders. -/
def c3LoadedCfg : ModelCfg :=
  { precision := CVal.vInt 16
    data := { test_ds := { add_bos := true, tokens_to_generate := 30, rest := [] }, rest := [] }
    activations_checkpoint_granularity := CVal.vNone
    activations_checkpoint_method := CVal.vNone
    use_flash_attention := none
    seq_len_interpolation_factor := none
    rest := [] }

/-- Concrete runtime config for the C3 witness: a non-`.nemo` adapter
path with an hparams fallback. -/
def c3Runtime : RuntimeCfg :=
  { trainer := { precision := CVal.vInt 16, rest := [] }
    model :=
      { restore_from_path := "base.nemo"
        peft := { restore_from_path := some "adapter_ckpt_dir", restore_from_hparams_path := some "hparams.yaml",
                  restore_from_ckpt_name := none }
        data := { test_ds := { add_bos := false, tokens_to_generate := 20, rest := [] }, rest := [] }
        use_flash_attention := false
        seq_len_interpolation_factor := none
        activations_checkpoint_granularity := none
        activations_checkpoint_method := none
        rest := [] }
    inference := { add_BOS := false, tokens_to_generate := 0, compute_logprob := false,
                   verbose := none, outfile_path := none, rest := [] }
    rest := [] }

/-- C3: when an adapter restore path is supplied (truthy) and does not
end in `.nemo`, the config is loaded from the companion hparams file
named by `peft.restore_from_hparams_path`; and the selection fails with a
`ConfigSourceError` if and only if the path does not end in `.nemo` and
no hparams fallback is given. -/
theorem c3_adapter_config_source (loadPeftNemo loadHparams loadBase : String → ModelCfg)
    (r : RuntimeCfg) (hp : truthy r.model.peft.restore_from_path = true) :
    (endsWithStr (r.model.peft.restore_from_path.getD "") ".nemo" = false →
      truthy r.model.peft.restore_from_hparams_path = true →
      selectPeftModelCfg loadPeftNemo loadHparams loadBase r =
        Except.ok (loadHparams (r.model.peft.restore_from_hparams_path.getD ""))) ∧
    ((∃ e, selectPeftModelCfg loadPeftNemo loadHparams loadBase r = Except.error e) ↔
      (endsWithStr (r.model.peft.restore_from_path.getD "") ".nemo" = false ∧
        truthy r.model.peft.restore_from_hparams_path = false)) := by
  unfold selectPeftModelCfg
  constructor
  · intro hn hh
    simp [hp, hn, hh]
  · cases hn : endsWithStr (r.model.peft.restore_from_path.getD "") ".nemo" <;>
      cases hh : truthy r.model.peft.restore_from_hparams_path <;>
        simp [hp, hn, hh]

/-- Witness for C3 at a concrete input: a supplied non-`.nemo` adapter
path with an hparams fallback loads the hparams config. -/
theorem c3_adapter_config_source_witness :
    truthy c3Runtime.model.peft.restore_from_path = true ∧
    selectPeftModelCfg (fun _ => c3LoadedCfg) (fun _ => c3LoadedCfg) (fun _ => c3LoadedCfg)
      c3Runtime = Except.ok c3LoadedCfg :=
  ⟨by decide,
   (c3_adapter_config_source (fun _ => c3LoadedCfg) (fun _ => c3LoadedCfg)
     (fun _ => c3LoadedCfg) c3Runtime (by decide)).1 (by decide) (by decide)⟩

/-- Concrete base model config for the C4 witness. -/
def c4BaseCfg : ModelCfg :=
  { precision := CVal.vInt 32
    data := { test_ds := { add_bos := false, tokens_to_generate := 10, rest := [] }, rest := [] }
    activations_checkpoint_granularity := CVal.vNone
    activations_checkpoint_method := CVal.vNone
    use_flash_attention := some true
    seq_len_interpolation_factor := none
    rest := [("sft_key", CVal.vBool true)] }

/-- Concrete runtime config for the C4 witness: no adapter path. -/
def c4Runtime : RuntimeCfg :=
  { trainer := { precision := CVal.vInt 16, rest := [] }
    model :=
      { restore_from_path := "sft_model.nemo"
        peft := { restore_from_path := none, restore_from_hparams_path := none,
                  restore_from_ckpt_name := none }
        data := { test_ds := { add_bos := true, tokens_to_generate := 25, rest := [] }, rest := [] }
        use_flash_attention := false
        seq_len_interpolation_factor := none
        activations_checkpoint_granularity := none
        activations_checkpoint_method := none
        rest := [] }
    inference := { add_BOS := false, tokens_to_generate := 0, compute_logprob := false,
                   verbose := none, outfile_path := none, rest := [] }
    rest := [] }

/-- C4: when `peft.restore_from_path` is unset (falsy: `None` or empty),
the selection does not fail: the config is restored from the base model
path alone, the plain `NLPSaveRestoreConnector` is used, and the whole
config pipeline equals a base-only merge. -/
theorem c4_no_adapter_base_only (loadPeftNemo loadHparams loadBase : String → ModelCfg)
    (r : RuntimeCfg) (hp : truthy r.model.peft.restore_from_path = false) :
    selectPeftModelCfg loadPeftNemo loadHparams loadBase r =
      Except.ok (loadBase r.model.restore_from_path) ∧
    selectConnector r.model.peft = Connector.NLPSaveRestoreConnector ∧
    configPipeline loadPeftNemo loadHparams loadBase r =
      Except.ok (mergeAndBackProp (loadBase r.model.restore_from_path) r) := by
  unfold configPipeline selectPeftModelCfg selectConnector
  simp [hp]

/-- Witness for C4 at a concrete input with no adapter path. -/
theorem c4_no_adapter_base_only_witness :
    truthy c4Runtime.model.peft.restore_from_path = false ∧
    configPipeline (fun _ => c4BaseCfg) (fun _ => c4BaseCfg) (fun _ => c4BaseCfg) c4Runtime =
      Except.ok (mergeAndBackProp c4BaseCfg c4Runtime) :=
  ⟨by decide,
   (c4_no_adapter_base_only (fun _ => c4BaseCfg) (fun _ => c4BaseCfg) (fun _ => c4BaseCfg)
     c4Runtime (by decide)).2.2⟩

/-- C5: for a raw-checkpoint adapter path (supplied, not ending in
`.nemo`), the connector's weight file name is `restore_from_ckpt_name`
when that option is set (non-empty), and exactly `model_weights.ckpt`
when it is unset (falsy). -/
theorem c5_ckpt_name_default (peft : PeftOpts)
    (hp : truthy peft.restore_from_path = true)
    (hn : endsWithStr (peft.restore_from_path.getD "") ".nemo" = false) :
    (∀ s, peft.restore_from_ckpt_name = some s → s ≠ "" →
      selectConnector peft = Connector.PEFTSaveRestoreConnector none
        (some (peft.restore_from_path.getD "")) (some s)) ∧
    (truthy peft.restore_from_ckpt_name = false →
      selectConnector peft = Connector.PEFTSaveRestoreConnector none
        (some (peft.restore_from_path.getD "")) (some "model_weights.ckpt")) := by
  unfold selectConnector
  constructor
  · intro s hs hsne
    have ht : truthy (some s) = true := by
      simp [truthy, hsne]
    simp [hp, hn, hs, ht]
  · intro ht
    simp [hp, hn, ht]

/-- Concrete peft options with an explicit checkpoint name for the C5
witness. -/
def c5PeftNamed : PeftOpts :=
  { restore_from_path := some "lora_ckpt_dir", restore_from_hparams_path := some "hp.yaml",
    restore_from_ckpt_name := some "custom.ckpt" }

/-- Concrete peft options without a checkpoint name for the C5 witness. -/
def c5PeftDefault : PeftOpts :=
  { restore_from_path := some "lora_dir", restore_from_hparams_path := some "hp.yaml",
    restore_from_ckpt_name := none }

/-- Witness for C5 at concrete inputs: with `restore_from_ckpt_name` set
the named file is used; without it the fixed default is used. -/
theorem c5_ckpt_name_default_witness :
    selectConnector c5PeftNamed =
      Connector.PEFTSaveRestoreConnector none (some "lora_ckpt_dir") (some "custom.ckpt") ∧
    selectConnector c5PeftDefault =
      Connector.PEFTSaveRestoreConnector none (some "lora_dir") (some "model_weights.ckpt") :=
  ⟨(c5_ckpt_name_default c5PeftNamed (by decide) (by decide)).1 "custom.ckpt" rfl (by decide),
   (c5_ckpt_name_default c5PeftDefault (by decide) (by decide)).2 (by decide)⟩

/-!  Claims about the output records (lines 331-354). -/

/-- Hexadecimal digits are never a newline. -/
theorem hexDigit_ne_newline : ∀ k, k < 16 → hexDigit k ≠ '\n' := by decide

/-- A `\uXXXX` escape contains no newline. -/
theorem newline_not_mem_uEscapeData (n : Nat) : '\n' ∉ uEscapeData n := by
  intro hmem
  simp only [uEscapeData, List.mem_cons, List.not_mem_nil, or_false] at hmem
  rcases hmem with h | h | h | h | h | h
  · exact absurd h (by decide)
  · exact absurd h (by decide)
  · exact hexDigit_ne_newline _ (Nat.mod_lt _ (by norm_num)) h.symm
  · exact hexDigit_ne_newline _ (Nat.mod_lt _ (by norm_num)) h.symm
  · exact hexDigit_ne_newline _ (Nat.mod_lt _ (by norm_num)) h.symm
  · exact hexDigit_ne_newline _ (Nat.mod_lt _ (by norm_num)) h.symm

/-- A code-point escape contains no newline. -/
theorem newline_not_mem_uEscapeCodeData (n : Nat) : '\n' ∉ uEscapeCodeData n := by
  unfold uEscapeCodeData
  split
  · exact newline_not_mem_uEscapeData n
  · intro hmem
    rcases List.mem_append.mp hmem with h | h
    · exact newline_not_mem_uEscapeData _ h
    · exact newline_not_mem_uEscapeData _ h

/-- The escape of any character contains no raw newline. -/
theorem newline_not_mem_jsonEscapeChar (c : Char) : '\n' ∉ jsonEscapeChar c := by
  unfold jsonEscapeChar
  split_ifs with h1 h2 h3 h4 h5 h6 h7 h8 h9
  · exact by decide
  · exact by decide
  · exact by decide
  · exact by decide
  · exact by decide
  · exact by decide
  · exact by decide
  · exact newline_not_mem_uEscapeData _
  · intro hmem
    rw [List.mem_singleton] at hmem
    exact h3 hmem.symm
  · exact newline_not_mem_uEscapeCodeData _

/-- The escape of a character list contains no raw newline. -/
theorem newline_not_mem_escData (l : List Char) : '\n' ∉ escData l := by
  induction l with
  | nil => simp [escData]
  | cons c cs ih =>
    intro hmem
    simp only [escData] at hmem
    rcases List.mem_append.mp hmem with h | h
    · exact newline_not_mem_jsonEscapeChar c h
    · exact ih h

/-- A JSON string literal contains no raw newline. -/
theorem newline_not_mem_jsonQuoteData (s : String) : '\n' ∉ jsonQuoteData s := by
  intro hmem
  simp only [jsonQuoteData, List.mem_cons, List.mem_append, List.mem_singleton] at hmem
  rcases hmem with (h | h) | h
  · exact absurd h (by decide)
  · exact newline_not_mem_escData _ h
  · exact absurd h (by decide)

/-- A `"key": "value"` entry contains no raw newline. -/
theorem newline_not_mem_jsonEntryData (kv : String × String) : '\n' ∉ jsonEntryData kv := by
  intro hmem
  simp only [jsonEntryData, List.mem_append, List.mem_cons] at hmem
  rcases hmem with h | h | h | h
  · exact newline_not_mem_jsonQuoteData _ h
  · exact absurd h (by decide)
  · exact absurd h (by decide)
  · exact newline_not_mem_jsonQuoteData _ h

/-- The compact entry list contains no raw newline. -/
theorem newline_not_mem_jsonEntriesData (kvs : List (String × String)) :
    '\n' ∉ jsonEntriesData kvs := by
  induction kvs with
  | nil => simp [jsonEntriesData]
  | cons kv rest ih =>
    cases rest with
    | nil =>
      simpa [jsonEntriesData] using newline_not_mem_jsonEntryData kv
    | cons kv2 kvs2 =>
      intro hmem
      simp only [jsonEntriesData, List.mem_append, List.mem_cons] at hmem
      rcases hmem with h | h | h | h
      · exact newline_not_mem_jsonEntryData kv h
      · exact absurd h (by decide)
      · exact absurd h (by decide)
      · exact ih h

/-- A compact `json.dumps` record (line 350) occupies a single output
line: its text contains no newline character. -/
theorem newline_not_mem_jsonDumpsObj (kvs : List (String × String)) :
    '\n' ∉ (jsonDumpsObj kvs).data := by
  intro hmem
  have hdata : (jsonDumpsObj kvs).data = lbrace :: jsonEntriesData kvs ++ [rbrace] := rfl
  rw [hdata] at hmem
  simp only [List.mem_cons, List.mem_append, List.mem_singleton] at hmem
  rcases hmem with (h | h) | h
  · exact absurd h (by decide)
  · exact newline_not_mem_jsonEntriesData kvs h
  · exact absurd h (by decide)

/-- C7: with `compute_logprob=False`, every record written to the output
file is exactly the compact JSON serialization of an object with the
single key `sentence` holding a generated sentence of the response, and
it occupies exactly one line (no embedded newline). -/
theorem c7_minimal_output_lines (inf : InferenceCfg) (response : List ResponseBatch)
    (h : inf.compute_logprob = false) :
    ∀ line ∈ recordLines inf response,
      (∃ b ∈ response, ∃ s ∈ b.sentences, line = jsonDumpsObj [("sentence", s)]) ∧
      '\n' ∉ line.data := by
  intro line hline
  rw [recordLines, List.mem_flatten] at hline
  obtain ⟨lb, hlb, hline⟩ := hline
  rw [List.mem_map] at hlb
  obtain ⟨b, hb, rfl⟩ := hlb
  simp only [batchRecords, h, Bool.false_eq_true, if_false] at hline
  obtain ⟨s, hs, rfl⟩ := List.mem_map.mp hline
  exact ⟨⟨b, hb, s, hs, rfl⟩, newline_not_mem_jsonDumpsObj _⟩

/-- Concrete inference options for the C7 witness: log-probabilities off,
an output file set. -/
def c7Inf : InferenceCfg :=
  { add_BOS := false, tokens_to_generate := 5, compute_logprob := false,
    verbose := none, outfile_path := some "out.jsonl", rest := [] }

/-- Concrete one-batch response for the C7 witness. -/
def c7Resp : List ResponseBatch :=
  [{ sentences := ["hello world"], tokens := [["hello", "world"]], logprob := [[]] }]

/-- Witness for C7 at a concrete response: the single written record is
the single-key serialization of its sentence and has no newline. -/
theorem c7_minimal_output_lines_witness :
    (∃ b ∈ c7Resp, ∃ s ∈ b.sentences,
        jsonDumpsObj [("sentence", "hello world")] = jsonDumpsObj [("sentence", s)]) ∧
    '\n' ∉ (jsonDumpsObj [("sentence", "hello world")]).data :=
  c7_minimal_output_lines c7Inf c7Resp rfl
    (jsonDumpsObj [("sentence", "hello world")]) (by decide)

/-- Concrete inference options for C8: log-probabilities and verbose
output on. -/
def c8Inf : InferenceCfg :=
  { add_BOS := false, tokens_to_generate := 5, compute_logprob := true,
    verbose := some true, outfile_path := some "out.jsonl", rest := [] }

/-- Concrete one-batch, one-example response for C8. -/
def c8Resp : List ResponseBatch :=
  [{ sentences := ["hi"], tokens := [["hi"]], logprob := [[(0 : Rat)]] }]

/-- C8 (counterexample): the claim that each verbose record is "one JSON
object per line" is false: the record is serialized with
`json.dumps(..., sort_keys=True, indent=2)`, so at a concrete one-example
response the single written record spans several lines (its text contains
newline characters). -/
theorem c8_record_not_one_line_counterexample :
    (recordLines c8Inf c8Resp).length = 1 ∧
    '\n' ∈ ((recordLines c8Inf c8Resp).headD "").data := by decide

/-- C8 (amended): with `compute_logprob=True` and verbose output on, each
output record is one pretty-printed (`sort_keys=True, indent=2`,
multi-line) JSON object containing exactly the keys `sentence` and
`tokens_with_logprobs`, where `tokens_with_logprobs` is the comma-joined
string of token/log-probability pairs, each log-probability formatted to
four decimal places. -/
theorem c8_verbose_record_format (inf : InferenceCfg) (response : List ResponseBatch)
    (h1 : inf.compute_logprob = true) (h2 : inf.verbose.getD false = true) :
    ∀ line ∈ recordLines inf response,
      ∃ b ∈ response, ∃ stl ∈ b.sentences.zip (b.tokens.zip b.logprob),
        line = jsonDumpsSortedIndent2
          [("sentence", stl.1),
           ("tokens_with_logprobs", tokensWithLogprobs stl.2.1 stl.2.2)] := by
  intro line hline
  rw [recordLines, List.mem_flatten] at hline
  obtain ⟨lb, hlb, hline⟩ := hline
  rw [List.mem_map] at hlb
  obtain ⟨b, hb, rfl⟩ := hlb
  simp only [batchRecords, h1, h2, if_true] at hline
  rw [List.mem_flatten] at hline
  obtain ⟨ls, hls, hline⟩ := hline
  rw [List.mem_map] at hls
  obtain ⟨stl, hstl, rfl⟩ := hls
  rw [List.mem_singleton] at hline
  exact ⟨b, hb, stl, hstl, hline⟩

/-- Witness for the amended C8 at a concrete response. -/
theorem c8_verbose_record_format_witness :
    ∃ b ∈ c8Resp, ∃ stl ∈ b.sentences.zip (b.tokens.zip b.logprob),
      jsonDumpsSortedIndent2
        [("sentence", "hi"),
         ("tokens_with_logprobs", tokensWithLogprobs ["hi"] [(0 : Rat)])] =
      jsonDumpsSortedIndent2
        [("sentence", stl.1),
         ("tokens_with_logprobs", tokensWithLogprobs stl.2.1 stl.2.2)] :=
  c8_verbose_record_format c8Inf c8Resp rfl rfl
    (jsonDumpsSortedIndent2
      [("sentence", "hi"),
       ("tokens_with_logprobs", tokensWithLogprobs ["hi"] [(0 : Rat)])])
    (by simp [recordLines, batchRecords, c8Inf, c8Resp])

/-- C9: on rank 0, when `outfile_path` is set all records of all batches
are written to that file and the path is reported; when it is unset, the
response is printed instead of written. -/
theorem c9_outfile_behavior (rank : Nat) (inf : InferenceCfg) (response : List ResponseBatch)
    (hrank : rank = 0) :
    (∀ p, inf.outfile_path = some p →
      emitResults rank inf response =
        EmitAction.toFile p ((response.map (batchRecords inf)).flatten)
          ("predictions saved to " ++ p)) ∧
    (inf.outfile_path = none → emitResults rank inf response = EmitAction.printed response) := by
  subst hrank
  constructor
  · intro p hp
    simp [emitResults, hp, recordLines]
  · intro hp
    simp [emitResults, hp]

/-- Concrete inference options with an output file, for the C9 witness. -/
def c9InfFile : InferenceCfg :=
  { add_BOS := false, tokens_to_generate := 5, compute_logprob := false,
    verbose := none, outfile_path := some "preds.jsonl", rest := [] }

/-- Concrete inference options without an output file, for the C9
witness. -/
def c9InfPrint : InferenceCfg :=
  { add_BOS := false, tokens_to_generate := 5, compute_logprob := false,
    verbose := none, outfile_path := none, rest := [] }

/-- Concrete response for the C9 witness. -/
def c9Resp : List ResponseBatch :=
  [{ sentences := ["a"], tokens := [["a"]], logprob := [[]] }]

/-- Witness for C9 at concrete inputs: with an output path the records
are written and the path reported; without one the response is printed. -/
theorem c9_outfile_behavior_witness :
    emitResults 0 c9InfFile c9Resp =
      EmitAction.toFile "preds.jsonl" ((c9Resp.map (batchRecords c9InfFile)).flatten)
        ("predictions saved to " ++ "preds.jsonl") ∧
    emitResults 0 c9InfPrint c9Resp = EmitAction.printed c9Resp :=
  ⟨(c9_outfile_behavior 0 c9InfFile c9Resp rfl).1 "preds.jsonl" rfl,
   (c9_outfile_behavior 0 c9InfPrint c9Resp rfl).2 rfl⟩

/-- C10: with `compute_logprob=True` and `verbose` absent or false, no
record at all is produced for any batch: the record list is empty, so
with an output path set the file is opened (created/truncated) with
nothing written to it, while the run still reports the saved path. -/
theorem c10_logprob_nonverbose_empty (inf : InferenceCfg) (response : List ResponseBatch)
    (h1 : inf.compute_logprob = true) (h2 : inf.verbose.getD false = false) :
    recordLines inf response = [] ∧
    (∀ p, inf.outfile_path = some p →
      emitResults 0 inf response = EmitAction.toFile p [] ("predictions saved to " ++ p)) := by
  have hb : ∀ b, batchRecords inf b = [] := by
    intro b
    simp [batchRecords, h1, h2]
  have hempty : recordLines inf response = [] := by
    rw [recordLines, List.flatten_eq_nil_iff]
    intro l hl
    rw [List.mem_map] at hl
    obtain ⟨b, _, rfl⟩ := hl
    exact hb b
  refine ⟨hempty, ?_⟩
  intro p hp
  simp [emitResults, hp, hempty]

/-- Concrete inference options for the C10 witness: log-probabilities on,
`verbose` absent, an output file set. -/
def c10Inf : InferenceCfg :=
  { add_BOS := false, tokens_to_generate := 5, compute_logprob := true,
    verbose := none, outfile_path := some "empty_out.jsonl", rest := [] }

/-- Concrete non-empty response for the C10 witness. -/
def c10Resp : List ResponseBatch :=
  [{ sentences := ["a sentence"], tokens := [["a", "sentence"]],
     logprob := [[-(1 : Rat) / 2]] }]

/-- Witness for C10 at a concrete non-empty response: nothing is written,
the file action carries an empty record list yet still reports the path. -/
theorem c10_logprob_nonverbose_empty_witness :
    recordLines c10Inf c10Resp = [] ∧
    emitResults 0 c10Inf c10Resp =
      EmitAction.toFile "empty_out.jsonl" [] ("predictions saved to " ++ "empty_out.jsonl") :=
  ⟨(c10_logprob_nonverbose_empty c10Inf c10Resp rfl rfl).1,
   (c10_logprob_nonverbose_empty c10Inf c10Resp rfl rfl).2 "empty_out.jsonl" rfl⟩
